import Mathlib

/-!
Verification development for the ABRP telemetry plugin
(`src/carconnectivity_plugins/abrp/plugin.py`).

The Python source is shallowly embedded as executable Lean definitions:

* the telemetry-record construction section of `_update_and_publish_telemetry`
  (plugin.py lines 131-194) becomes `build_telemetry`, split into one Lean
  function per `if`-block of the source, composed in source order;
* `_publish_telemetry` (lines 219-253) becomes `publish_telemetry`, a pure
  transition function on `PluginState` driven by the classified HTTP response;
* `_get_next_charge` (lines 198-217) becomes `get_next_charge`; since the
  source has no `try`/`except` there, a raising request is modelled by the
  `Except.error` result carrying the state at the moment the exception
  escapes;
* the `for` loop and `try`/`except` of `_background_loop` (lines 92-108)
  become `tick_vehicles`, `background_tick` and `background_loop`;
* the configuration validation of `__init__` (lines 73-82) becomes
  `plugin_init`.

Numeric attribute values (percentages, kilometres, kilowatts, degrees,
epoch seconds) are modelled as rationals; the unit conversions
(`power_in(Power.KW)`, `range_in(Length.KM)`, `range_in(Length.M)`,
`temperature_in(Temperature.C)`, `astimezone(...).timestamp()`) performed by
the external carconnectivity library are modelled as the identity on the
already-converted stored value.
-/

namespace Abrp

/-- `Charging.ChargingState` of the external carconnectivity library; the
plugin mentions OFF, READY_FOR_CHARGING, CHARGING, CONSERVATION, DISCHARGING
and ERROR, the remaining constructors stand for every other member. -/
inductive ChargingState where
  | off
  | ready_for_charging
  | charging
  | conservation
  | discharging
  | error
  | unsupported
  | unknown
deriving DecidableEq, Repr

/-- `Charging.ChargingType`: AC, DC, or any other member. -/
inductive ChargingType where
  | ac
  | dc
  | unsupported
  | unknown
deriving DecidableEq, Repr

/-- `PositionType` of the vehicle position: PARKING, DRIVING, or other. -/
inductive PositionType where
  | parking
  | driving
  | unknown
deriving DecidableEq, Repr

/-- `GenericDrive.Type`: ELECTRIC or any other member. -/
inductive DriveType where
  | electric
  | fuel
  | unknown
deriving DecidableEq, Repr

/-- `ConnectionState` of the external carconnectivity library. -/
inductive ConnectionState where
  | disconnected
  | connecting
  | connected
  | error
deriving DecidableEq, Repr

/-- Log severities used by the plugin. -/
inductive LogSeverity where
  | debug
  | info
  | warning
  | error
  | critical
deriving DecidableEq, Repr

/-- A carconnectivity attribute as read by the plugin: an `enabled` flag and
a possibly absent value (`value is not None` becomes `value.isSome`). -/
structure OptAttr (α : Type) where
  enabled : Bool
  value : Option α
deriving DecidableEq, Repr

/-- One entry of `vehicle.drives.drives.values()` as read by the plugin:
lines 134-148 read `enabled`, `type.value`, `level`, `level.last_updated`
and `range`. -/
structure Drive where
  enabled : Bool
  type : Option DriveType
  level : OptAttr ℚ
  level_last_updated : Option ℚ
  range : OptAttr ℚ
deriving DecidableEq, Repr

/-- `vehicle.charging` as read by lines 154-174. -/
structure ChargingView where
  enabled : Bool
  state : OptAttr ChargingState
  type : OptAttr ChargingType
  power : OptAttr ℚ
deriving DecidableEq, Repr

/-- `vehicle.position` as read by lines 176-189. -/
structure PositionView where
  enabled : Bool
  position_type : OptAttr PositionType
  latitude : OptAttr ℚ
  longitude : OptAttr ℚ
  altitude : OptAttr ℚ
  heading : OptAttr ℚ
deriving DecidableEq, Repr

/-- `vehicle.climatization.settings` as read by lines 192-194;
`target_temperature` may itself be `None`. -/
structure ClimatizationSettings where
  enabled : Bool
  target_temperature : Option (OptAttr ℚ)
deriving DecidableEq, Repr

/-- `vehicle.climatization` as read by lines 192-194. -/
structure ClimatizationView where
  enabled : Bool
  settings : ClimatizationSettings
deriving DecidableEq, Repr

/-- One managing connector: the plugin only calls `is_healthy()` (line 127)
and reads `id` for the log message. -/
structure Connector where
  id : String
  healthy : Bool
deriving DecidableEq, Repr

/-- The read-only vehicle view consumed by `_update_and_publish_telemetry`.
`is_electric` models the `isinstance(vehicle, ElectricVehicle)` test of
line 153; `charging` and `position` are `Option`s because the source guards
them with `is not None`. -/
structure VehicleView where
  is_electric : Bool
  drives_enabled : Bool
  drives : List Drive
  odometer : OptAttr ℚ
  charging : Option ChargingView
  position : Option PositionView
  outside_temperature : OptAttr ℚ
  climatization : ClimatizationView
  managing_connectors : List Connector
deriving DecidableEq, Repr

/-- The `telemetry_data` dictionary: every key the source can assign
(lines 143-194), each present or absent. -/
structure TelemetryRecord where
  soc : Option ℚ := none
  utc : Option ℚ := none
  est_battery_range : Option ℚ := none
  odometer : Option ℚ := none
  is_charging : Option Bool := none
  is_dcfc : Option Bool := none
  power : Option ℚ := none
  is_parked : Option Bool := none
  lat : Option ℚ := none
  lon : Option ℚ := none
  elevation : Option ℚ := none
  heading : Option ℚ := none
  ext_temp : Option ℚ := none
  hvac_setpoint : Option ℚ := none
deriving DecidableEq, Repr

/-- Electric-drive selection, lines 133-140: with exactly one drive use it if
enabled; with several take the first enabled drive whose type is ELECTRIC. -/
def select_electric_drive : List Drive → Option Drive
  | [] => none
  | [d] => if d.enabled then some d else none
  | d₁ :: d₂ :: ds => (d₁ :: d₂ :: ds).find? fun d =>
      d.enabled && decide (d.type = some DriveType.electric)

/-- Lines 142-145: `soc` and, when a timestamp exists, `utc`. -/
def set_soc_utc (d : Drive) (r : TelemetryRecord) : TelemetryRecord :=
  match d.level.enabled, d.level.value with
  | true, some lvl =>
    let r := { r with soc := some lvl }
    match d.level_last_updated with
    | some ts => { r with utc := some ts }
    | none => r
  | _, _ => r

/-- Lines 147-148: `est_battery_range`. -/
def set_range (d : Drive) (r : TelemetryRecord) : TelemetryRecord :=
  match d.range.enabled, d.range.value with
  | true, some rg => { r with est_battery_range := some rg }
  | _, _ => r

/-- Lines 132-148: the drive-derived fields. -/
def add_drive_fields (v : VehicleView) (r : TelemetryRecord) : TelemetryRecord :=
  if v.drives_enabled then
    match select_electric_drive v.drives with
    | some d => set_range d (set_soc_utc d r)
    | none => r
  else r

/-- Lines 150-151: `odometer`. -/
def add_odometer_field (v : VehicleView) (r : TelemetryRecord) : TelemetryRecord :=
  match v.odometer.enabled, v.odometer.value with
  | true, some o => { r with odometer := some o }
  | _, _ => r

/-- Lines 155-163: `is_charging` from the charging state. -/
def set_is_charging (ch : ChargingView) (r : TelemetryRecord) : TelemetryRecord :=
  match ch.state.enabled, ch.state.value with
  | true, some st =>
    if st = ChargingState.charging ∨ st = ChargingState.conservation ∨
        st = ChargingState.discharging then
      { r with is_charging := some true }
    else if st = ChargingState.off ∨ st = ChargingState.ready_for_charging ∨
        st = ChargingState.error then
      { r with is_charging := some false }
    else r
  | _, _ => r

/-- Lines 164-168: `is_dcfc` from the charging type. -/
def set_is_dcfc (ch : ChargingView) (r : TelemetryRecord) : TelemetryRecord :=
  match ch.type.enabled, ch.type.value with
  | true, some ty =>
    if ty = ChargingType.dc then { r with is_dcfc := some true }
    else if ty = ChargingType.ac then { r with is_dcfc := some false }
    else r
  | _, _ => r

/-- Lines 169-174: `power`, negated, and negated again when discharging. -/
def set_power (ch : ChargingView) (r : TelemetryRecord) : TelemetryRecord :=
  match ch.power.enabled, ch.power.value with
  | true, some p =>
    let power : ℚ := p * (-1)
    let power : ℚ :=
      if ch.state.enabled ∧ ch.state.value = some ChargingState.discharging then
        power * (-1)
      else power
    { r with power := some power }
  | _, _ => r

/-- Lines 153-174: charging fields, gated by `isinstance(vehicle,
ElectricVehicle)` and `vehicle.charging is not None and enabled`. -/
def add_charging_fields (v : VehicleView) (r : TelemetryRecord) : TelemetryRecord :=
  if v.is_electric then
    match v.charging with
    | some ch => if ch.enabled then set_power ch (set_is_dcfc ch (set_is_charging ch r)) else r
    | none => r
  else r

/-- Lines 177-181: `is_parked` from the position type. -/
def set_is_parked (pos : PositionView) (r : TelemetryRecord) : TelemetryRecord :=
  match pos.position_type.enabled, pos.position_type.value with
  | true, some PositionType.parking => { r with is_parked := some true }
  | true, some PositionType.driving => { r with is_parked := some false }
  | _, _ => r

/-- Lines 182-185: `lat` and `lon`, only ever together. -/
def set_lat_lon (pos : PositionView) (r : TelemetryRecord) : TelemetryRecord :=
  match pos.latitude.enabled, pos.latitude.value, pos.longitude.enabled, pos.longitude.value with
  | true, some la, true, some lo => { r with lat := some la, lon := some lo }
  | _, _, _, _ => r

/-- Lines 186-187: `elevation`. -/
def set_elevation (pos : PositionView) (r : TelemetryRecord) : TelemetryRecord :=
  match pos.altitude.enabled, pos.altitude.value with
  | true, some alt => { r with elevation := some alt }
  | _, _ => r

/-- Lines 188-189: `heading`. -/
def set_heading (pos : PositionView) (r : TelemetryRecord) : TelemetryRecord :=
  match pos.heading.enabled, pos.heading.value with
  | true, some hd => { r with heading := some hd }
  | _, _ => r

/-- Lines 176-189: position fields, gated by `vehicle.position is not None
and vehicle.position.enabled`. -/
def add_position_fields (v : VehicleView) (r : TelemetryRecord) : TelemetryRecord :=
  match v.position with
  | some pos =>
    if pos.enabled then set_heading pos (set_elevation pos (set_lat_lon pos (set_is_parked pos r)))
    else r
  | none => r

/-- Lines 190-191: `ext_temp`. -/
def add_temperature_field (v : VehicleView) (r : TelemetryRecord) : TelemetryRecord :=
  match v.outside_temperature.enabled, v.outside_temperature.value with
  | true, some t => { r with ext_temp := some t }
  | _, _ => r

/-- Lines 192-194: `hvac_setpoint`. -/
def add_climatization_field (v : VehicleView) (r : TelemetryRecord) : TelemetryRecord :=
  if v.climatization.enabled then
    match v.climatization.settings.enabled, v.climatization.settings.target_temperature with
    | true, some tt =>
      match tt.enabled, tt.value with
      | true, some temp => { r with hvac_setpoint := some temp }
      | _, _ => r
    | _, _ => r
  else r

/-- The record-construction section of `_update_and_publish_telemetry`
(lines 131-194), applied to an empty dictionary in source order. -/
def build_telemetry (v : VehicleView) : TelemetryRecord :=
  add_climatization_field v
    (add_temperature_field v
      (add_position_fields v
        (add_charging_fields v
          (add_odometer_field v
            (add_drive_fields v {})))))

/-! ### Plugin state and the two remote operations -/

/-- Ordered association list standing for a Python `dict`: assignment
`m[k] = v` replaces the value of an existing key in place or appends a new
entry at the end, exactly like a Python dict. -/
def updateAssoc {α : Type} (m : List (String × α)) (k : String) (v : α) :
    List (String × α) :=
  match m with
  | [] => [(k, v)]
  | (k', v') :: rest => if k' = k then (k, v) :: rest else (k', v') :: updateAssoc rest k v

/-- Lookup in the association list (`k in m` / `m[k]`). -/
def lookupAssoc {α : Type} (m : List (String × α)) (k : String) : Option α :=
  match m with
  | [] => none
  | (k', v') :: rest => if k' = k then some v' else lookupAssoc rest k

/-- The mutable plugin attributes read and written by the embedded methods:
`subsequent_errors` (line 56), `connection_state` (line 65),
`last_telemetry_data` (line 62, vin ↦ (timestamp, data)), the
`next_charge_level` values of the `abrp_objects` (line 63, token ↦ value,
an entry existing once the `ABRP` object has been created), and the
`healthy` flag of the base plugin. -/
structure PluginState where
  subsequent_errors : Nat
  connection_state : ConnectionState
  last_telemetry_data : List (String × (ℚ × TelemetryRecord))
  next_charge : List (String × Option ℚ)
  healthy : Bool
deriving DecidableEq, Repr

/-- A parsed JSON object body of the `tlm/send` response: the `status` key
(if present, with its string value) and whether a `missing` key is present
(line 240, only logged). -/
structure PushBody where
  status : Option String
  missing : Bool
deriving DecidableEq, Repr

/-- Result of `response.json()`: the call can raise (unparseable body; the
`JSONDecodeError` is a `RequestException`), return `None` (a JSON `null`
body), or return an object. -/
inductive BodyResult where
  | parse_failure
  | null
  | obj (b : PushBody)
deriving DecidableEq, Repr

/-- Outcome of `session.post` for `tlm/send`: either the post itself raises
a `RequestException` (after the adapter's transparent retries), or an HTTP
response with a status code and a body arrives. -/
inductive PushResponse where
  | request_exception
  | response (status_code : Nat) (body : BodyResult)
deriving DecidableEq, Repr

/-- `_publish_telemetry` (lines 219-253) as a transition on `PluginState`.
`codes['ok']` is HTTP 200. Branches in source order:
line 224: a non-200 status code only logs, nothing else happens;
lines 227-239: a 200 response is parsed; a body with `status != 'ok'` logs
(severity chosen by `subsequent_errors > 0`) and sets the connection state
to ERROR; `status == 'ok'` resets `subsequent_errors`, sets CONNECTED and
stores `(now, telemetry_data)` in `last_telemetry_data[vin]`;
lines 242-247: a body without a `status` key, or a `None` body, sets ERROR;
lines 248-253: any `RequestException` inside the `try` (including a body
that fails to parse) logs and sets ERROR. -/
def publish_telemetry (s : PluginState) (vin : String) (telemetry_data : TelemetryRecord)
    (now : ℚ) (resp : PushResponse) : PluginState :=
  match resp with
  | PushResponse.request_exception => { s with connection_state := ConnectionState.error }
  | PushResponse.response status_code body =>
    if status_code ≠ 200 then s
    else
      match body with
      | BodyResult.parse_failure => { s with connection_state := ConnectionState.error }
      | BodyResult.null => { s with connection_state := ConnectionState.error }
      | BodyResult.obj b =>
        match b.status with
        | some st =>
          if st ≠ "ok" then { s with connection_state := ConnectionState.error }
          else
            { s with subsequent_errors := 0,
                     connection_state := ConnectionState.connected,
                     last_telemetry_data :=
                       updateAssoc s.last_telemetry_data vin (now, telemetry_data) }
        | none => { s with connection_state := ConnectionState.error }

/-- A parsed JSON object body of the `tlm/get_next_charge` response:
the `status` key and the `next_charge` key (`none` = key absent,
`some none` = key present holding `null`, `some (some q)` = a value). -/
structure NextChargeBody where
  status : Option String
  next_charge : Option (Option ℚ)
deriving DecidableEq, Repr

/-- Result of `response.json()` for `tlm/get_next_charge`; a `None` body
makes line 209 evaluate `'status' in None`, which raises `TypeError`, so
`null` raises just like an unparseable body. -/
inductive NextBodyResult where
  | parse_failure
  | null
  | obj (b : NextChargeBody)
deriving DecidableEq, Repr

/-- Outcome of `session.post` for `tlm/get_next_charge`. -/
inductive NextChargeResponse where
  | request_exception
  | response (status_code : Nat) (body : NextBodyResult)
deriving DecidableEq, Repr

/-- `_get_next_charge` (lines 198-217). Lines 199-203 first ensure an `ABRP`
object exists for the token (its fresh `next_charge_level` holds no value).
The method body has no exception handler, so a raising `session.post`
(or a raising/`None` `response.json()` at a 200 status) escapes the method;
this is modelled by `Except.error` carrying the state at that moment.
Otherwise: 200 with `status == 'ok'` and a non-null `next_charge` stores
that value (line 211); every other response stores `None`
(lines 213, 215, 217). The connection state is never touched. -/
def get_next_charge (s : PluginState) (token : String) (resp : NextChargeResponse) :
    Except PluginState PluginState :=
  let s₁ :=
    if (lookupAssoc s.next_charge token).isSome then s
    else { s with next_charge := updateAssoc s.next_charge token none }
  match resp with
  | NextChargeResponse.request_exception => Except.error s₁
  | NextChargeResponse.response status_code body =>
    if status_code ≠ 200 then
      Except.ok { s₁ with next_charge := updateAssoc s₁.next_charge token none }
    else
      match body with
      | NextBodyResult.parse_failure => Except.error s₁
      | NextBodyResult.null => Except.error s₁
      | NextBodyResult.obj b =>
        if b.status = some "ok" then
          match b.next_charge with
          | some (some q) =>
            Except.ok { s₁ with next_charge := updateAssoc s₁.next_charge token (some q) }
          | _ =>
            Except.ok { s₁ with next_charge := updateAssoc s₁.next_charge token none }
        else
          Except.ok { s₁ with next_charge := updateAssoc s₁.next_charge token none }

/-- The HTTP requests a tick can issue, recorded for the frame-effect
claims: the `tlm/send` post with its payload and the `tlm/get_next_charge`
post. -/
inductive Request where
  | push_telemetry (vin : String) (data : TelemetryRecord)
  | fetch_next_charge (token : String)
deriving DecidableEq, Repr

/-- `_update_and_publish_telemetry` (lines 117-196): given the registry
lookup result for the vin and the responses the network would return,
produce the outcome (re-raising propagates from `_get_next_charge`) and the
list of HTTP requests issued. Line 124: an absent vehicle is skipped
silently; lines 126-129: any unhealthy managing connector logs at error
severity and returns before anything is built or sent; otherwise the record
is built (lines 131-194), pushed (line 195) and the next charge fetched
(line 196). -/
def update_and_publish_telemetry (s : PluginState) (vehicle : Option VehicleView)
    (vin token : String) (now : ℚ) (push_resp : PushResponse)
    (next_resp : NextChargeResponse) :
    Except PluginState PluginState × List Request :=
  match vehicle with
  | none => (Except.ok s, [])
  | some veh =>
    if veh.managing_connectors.any (fun c => !c.healthy) then (Except.ok s, [])
    else
      let telemetry_data := build_telemetry veh
      let s₁ := publish_telemetry s vin telemetry_data now push_resp
      (get_next_charge s₁ token next_resp,
        [Request.push_telemetry vin telemetry_data, Request.fetch_next_charge token])

/-! ### The background loop -/

/-- The per-vehicle environment of one iteration of the `for` loop of
`_background_loop`: the configured (vin, token) pair, the registry lookup
result, the wall clock and the two network outcomes. -/
structure VehicleTickInput where
  vin : String
  token : String
  vehicle : Option VehicleView
  now : ℚ
  push_resp : PushResponse
  next_resp : NextChargeResponse
deriving DecidableEq, Repr

/-- Lines 97-98: before each vehicle, a connection state other than
CONNECTED is driven to CONNECTING. -/
def connecting_adjust (s : PluginState) : PluginState :=
  if s.connection_state ≠ ConnectionState.connected then
    { s with connection_state := ConnectionState.connecting }
  else s

/-- The `for vin, token in tokens.items()` loop of lines 96-99: vehicles are
processed in configured order; an exception escaping
`_update_and_publish_telemetry` aborts the remaining vehicles. The issued
requests are accumulated. -/
def tick_vehicles (s : PluginState) :
    List VehicleTickInput → Except PluginState PluginState × List Request
  | [] => (Except.ok s, [])
  | item :: rest =>
    let s₁ := connecting_adjust s
    match update_and_publish_telemetry s₁ item.vehicle item.vin item.token item.now
        item.push_resp item.next_resp with
    | (Except.ok s₂, reqs) =>
      let (res, reqs') := tick_vehicles s₂ rest
      (res, reqs ++ reqs')
    | (Except.error s₂, reqs) => (Except.error s₂, reqs)

/-- One iteration of the `while` loop with its `try`/`except`
(lines 94-108): an exception escaping the tick body is logged at critical
severity, `healthy` is set to `False`, the connection state to ERROR, and
the exception is re-raised (`Except.error`). The third component lists the
severities logged by the handler itself. -/
def background_tick (s : PluginState) (items : List VehicleTickInput) :
    Except PluginState PluginState × List Request × List LogSeverity :=
  match tick_vehicles s items with
  | (Except.ok s₁, reqs) => (Except.ok s₁, reqs, [])
  | (Except.error s₁, reqs) =>
    (Except.error { s₁ with healthy := false, connection_state := ConnectionState.error },
      reqs, [LogSeverity.critical])

/-- `_background_loop` (lines 92-108) over a finite schedule of tick
environments: each tick runs under the handler; a re-raised exception
terminates the worker, so no later tick is executed. -/
def background_loop (s : PluginState) :
    List (List VehicleTickInput) → Except PluginState PluginState
  | [] => Except.ok s
  | items :: rest =>
    match background_tick s items with
    | (Except.ok s₁, _, _) => background_loop s₁ rest
    | (Except.error s₁, _, _) => Except.error s₁

/-! ### Configuration validation -/

/-- The configuration consumed by `__init__`: the token mapping (an empty
list models both a missing and an empty `tokens` entry, both falsy) and the
optional `interval` entry, in seconds. -/
structure PluginConfig where
  tokens : List (String × String)
  interval : Option Int
deriving DecidableEq, Repr

/-- The resulting `active_config`. -/
structure ActiveConfig where
  tokens : List (String × String)
  interval : Int
deriving DecidableEq, Repr

/-- The validation part of `__init__` (lines 73-82): missing/empty tokens
raise a `ConfigurationError`; `interval` defaults to 60 and, when
configured, must be at least 10 or a `ConfigurationError` is raised. -/
def plugin_init (config : PluginConfig) : Except String ActiveConfig :=
  if config.tokens.isEmpty then
    Except.error "No ABRP Tokens specified in config (tokens missing)"
  else
    match config.interval with
    | none => Except.ok ⟨config.tokens, 60⟩
    | some i =>
      if i < 10 then Except.error "Interval must be at least 10 seconds"
      else Except.ok ⟨config.tokens, i⟩

/-- Collapse an `Except PluginState PluginState` to the state it carries,
whichever way the operation ended. -/
def exceptState : Except PluginState PluginState → PluginState
  | Except.ok s => s
  | Except.error s => s

/-! ### Concrete inputs used to instantiate the theorems -/

/-- A vehicle view with every attribute disabled/absent. -/
def emptyVehicle : VehicleView where
  is_electric := false
  drives_enabled := false
  drives := []
  odometer := ⟨false, none⟩
  charging := none
  position := none
  outside_temperature := ⟨false, none⟩
  climatization := ⟨false, ⟨false, none⟩⟩
  managing_connectors := []

/-- Charging view: state CHARGING, type AC, power 5 kW. -/
def chargingAt5kW : ChargingView where
  enabled := true
  state := ⟨true, some ChargingState.charging⟩
  type := ⟨true, some ChargingType.ac⟩
  power := ⟨true, some 5⟩

/-- Charging view: state DISCHARGING, power 5 kW. -/
def dischargingAt5kW : ChargingView where
  enabled := true
  state := ⟨true, some ChargingState.discharging⟩
  type := ⟨true, some ChargingType.ac⟩
  power := ⟨true, some 5⟩

/-- An electric vehicle charging at 5 kW. -/
def evCharging : VehicleView :=
  { emptyVehicle with is_electric := true, charging := some chargingAt5kW }

/-- An electric vehicle discharging at 5 kW. -/
def evDischarging : VehicleView :=
  { emptyVehicle with is_electric := true, charging := some dischargingAt5kW }

/-- A non-electric vehicle that nevertheless carries fully populated
charging attributes. -/
def nonEvWithChargingData : VehicleView :=
  { emptyVehicle with is_electric := false, charging := some chargingAt5kW }

/-- A vehicle whose single managing connector reports unhealthy. -/
def vehicleUnhealthyConnector : VehicleView :=
  { emptyVehicle with managing_connectors := [⟨"connector1", false⟩] }

/-- The plugin state right after `__init__`. -/
def initialState : PluginState where
  subsequent_errors := 0
  connection_state := ConnectionState.disconnected
  last_telemetry_data := []
  next_charge := []
  healthy := true

/-- A state that has seen a successful push and holds a next-charge value. -/
def connectedState : PluginState where
  subsequent_errors := 0
  connection_state := ConnectionState.connected
  last_telemetry_data := []
  next_charge := [("token1", some 50)]
  healthy := true

/-- A 200 response whose JSON body reports status "ok". -/
def okPushResponse : PushResponse :=
  PushResponse.response 200 (BodyResult.obj ⟨some "ok", false⟩)

/-- A 200 response whose JSON body reports status "fail". -/
def failPushResponse : PushResponse :=
  PushResponse.response 200 (BodyResult.obj ⟨some "fail", false⟩)

/-- A tick environment whose `tlm/get_next_charge` post raises a
`RequestException`: the vehicle itself is processed (no connectors, so none
is unhealthy) and the push succeeds. -/
def faultyTickItem : VehicleTickInput where
  vin := "VIN1"
  token := "token1"
  vehicle := some emptyVehicle
  now := 1700000000
  push_resp := okPushResponse
  next_resp := NextChargeResponse.request_exception

/-- The state carried by the exception when `faultyTickItem` is processed
from `initialState`: the push succeeded (CONNECTED, cache filled), the
fresh abrp object for "token1" was created, then the fetch raised. -/
def faultyTickErrorState : PluginState where
  subsequent_errors := 0
  connection_state := ConnectionState.connected
  last_telemetry_data := [("VIN1", (1700000000, {}))]
  next_charge := [("token1", none)]
  healthy := true

/-! ### Frame lemmas: each builder stage leaves the other fields alone -/

@[simp] lemma set_soc_utc_is_charging (d : Drive) (r : TelemetryRecord) :
    (set_soc_utc d r).is_charging = r.is_charging := by
  unfold set_soc_utc; repeat' first | rfl | split | dsimp only

@[simp] lemma set_soc_utc_is_dcfc (d : Drive) (r : TelemetryRecord) :
    (set_soc_utc d r).is_dcfc = r.is_dcfc := by
  unfold set_soc_utc; repeat' first | rfl | split | dsimp only

@[simp] lemma set_soc_utc_power (d : Drive) (r : TelemetryRecord) :
    (set_soc_utc d r).power = r.power := by
  unfold set_soc_utc; repeat' first | rfl | split | dsimp only

@[simp] lemma set_soc_utc_lat (d : Drive) (r : TelemetryRecord) :
    (set_soc_utc d r).lat = r.lat := by
  unfold set_soc_utc; repeat' first | rfl | split | dsimp only

@[simp] lemma set_soc_utc_lon (d : Drive) (r : TelemetryRecord) :
    (set_soc_utc d r).lon = r.lon := by
  unfold set_soc_utc; repeat' first | rfl | split | dsimp only

@[simp] lemma set_range_is_charging (d : Drive) (r : TelemetryRecord) :
    (set_range d r).is_charging = r.is_charging := by
  unfold set_range; repeat' first | rfl | split | dsimp only

@[simp] lemma set_range_is_dcfc (d : Drive) (r : TelemetryRecord) :
    (set_range d r).is_dcfc = r.is_dcfc := by
  unfold set_range; repeat' first | rfl | split | dsimp only

@[simp] lemma set_range_power (d : Drive) (r : TelemetryRecord) :
    (set_range d r).power = r.power := by
  unfold set_range; repeat' first | rfl | split | dsimp only

@[simp] lemma set_range_lat (d : Drive) (r : TelemetryRecord) :
    (set_range d r).lat = r.lat := by
  unfold set_range; repeat' first | rfl | split | dsimp only

@[simp] lemma set_range_lon (d : Drive) (r : TelemetryRecord) :
    (set_range d r).lon = r.lon := by
  unfold set_range; repeat' first | rfl | split | dsimp only

@[simp] lemma add_drive_fields_is_charging (v : VehicleView) (r : TelemetryRecord) :
    (add_drive_fields v r).is_charging = r.is_charging := by
  unfold add_drive_fields; repeat' first | rfl | split | simp

@[simp] lemma add_drive_fields_is_dcfc (v : VehicleView) (r : TelemetryRecord) :
    (add_drive_fields v r).is_dcfc = r.is_dcfc := by
  unfold add_drive_fields; repeat' first | rfl | split | simp

@[simp] lemma add_drive_fields_power (v : VehicleView) (r : TelemetryRecord) :
    (add_drive_fields v r).power = r.power := by
  unfold add_drive_fields; repeat' first | rfl | split | simp

@[simp] lemma add_drive_fields_lat (v : VehicleView) (r : TelemetryRecord) :
    (add_drive_fields v r).lat = r.lat := by
  unfold add_drive_fields; repeat' first | rfl | split | simp

@[simp] lemma add_drive_fields_lon (v : VehicleView) (r : TelemetryRecord) :
    (add_drive_fields v r).lon = r.lon := by
  unfold add_drive_fields; repeat' first | rfl | split | simp

@[simp] lemma add_odometer_field_is_charging (v : VehicleView) (r : TelemetryRecord) :
    (add_odometer_field v r).is_charging = r.is_charging := by
  unfold add_odometer_field; repeat' first | rfl | split | dsimp only

@[simp] lemma add_odometer_field_is_dcfc (v : VehicleView) (r : TelemetryRecord) :
    (add_odometer_field v r).is_dcfc = r.is_dcfc := by
  unfold add_odometer_field; repeat' first | rfl | split | dsimp only

@[simp] lemma add_odometer_field_power (v : VehicleView) (r : TelemetryRecord) :
    (add_odometer_field v r).power = r.power := by
  unfold add_odometer_field; repeat' first | rfl | split | dsimp only

@[simp] lemma add_odometer_field_lat (v : VehicleView) (r : TelemetryRecord) :
    (add_odometer_field v r).lat = r.lat := by
  unfold add_odometer_field; repeat' first | rfl | split | dsimp only

@[simp] lemma add_odometer_field_lon (v : VehicleView) (r : TelemetryRecord) :
    (add_odometer_field v r).lon = r.lon := by
  unfold add_odometer_field; repeat' first | rfl | split | dsimp only

@[simp] lemma set_is_charging_power (ch : ChargingView) (r : TelemetryRecord) :
    (set_is_charging ch r).power = r.power := by
  unfold set_is_charging; repeat' first | rfl | split | dsimp only

@[simp] lemma set_is_charging_lat (ch : ChargingView) (r : TelemetryRecord) :
    (set_is_charging ch r).lat = r.lat := by
  unfold set_is_charging; repeat' first | rfl | split | dsimp only

@[simp] lemma set_is_charging_lon (ch : ChargingView) (r : TelemetryRecord) :
    (set_is_charging ch r).lon = r.lon := by
  unfold set_is_charging; repeat' first | rfl | split | dsimp only

@[simp] lemma set_is_dcfc_is_charging (ch : ChargingView) (r : TelemetryRecord) :
    (set_is_dcfc ch r).is_charging = r.is_charging := by
  unfold set_is_dcfc; repeat' first | rfl | split | dsimp only

@[simp] lemma set_is_dcfc_power (ch : ChargingView) (r : TelemetryRecord) :
    (set_is_dcfc ch r).power = r.power := by
  unfold set_is_dcfc; repeat' first | rfl | split | dsimp only

@[simp] lemma set_is_dcfc_lat (ch : ChargingView) (r : TelemetryRecord) :
    (set_is_dcfc ch r).lat = r.lat := by
  unfold set_is_dcfc; repeat' first | rfl | split | dsimp only

@[simp] lemma set_is_dcfc_lon (ch : ChargingView) (r : TelemetryRecord) :
    (set_is_dcfc ch r).lon = r.lon := by
  unfold set_is_dcfc; repeat' first | rfl | split | dsimp only

@[simp] lemma set_power_is_charging (ch : ChargingView) (r : TelemetryRecord) :
    (set_power ch r).is_charging = r.is_charging := by
  unfold set_power; repeat' first | rfl | split | dsimp only

@[simp] lemma set_power_lat (ch : ChargingView) (r : TelemetryRecord) :
    (set_power ch r).lat = r.lat := by
  unfold set_power; repeat' first | rfl | split | dsimp only

@[simp] lemma set_power_lon (ch : ChargingView) (r : TelemetryRecord) :
    (set_power ch r).lon = r.lon := by
  unfold set_power; repeat' first | rfl | split | dsimp only

@[simp] lemma add_charging_fields_lat (v : VehicleView) (r : TelemetryRecord) :
    (add_charging_fields v r).lat = r.lat := by
  unfold add_charging_fields; repeat' first | rfl | split | simp

@[simp] lemma add_charging_fields_lon (v : VehicleView) (r : TelemetryRecord) :
    (add_charging_fields v r).lon = r.lon := by
  unfold add_charging_fields; repeat' first | rfl | split | simp

@[simp] lemma set_is_parked_is_charging (pos : PositionView) (r : TelemetryRecord) :
    (set_is_parked pos r).is_charging = r.is_charging := by
  unfold set_is_parked; repeat' first | rfl | split | dsimp only

@[simp] lemma set_is_parked_is_dcfc (pos : PositionView) (r : TelemetryRecord) :
    (set_is_parked pos r).is_dcfc = r.is_dcfc := by
  unfold set_is_parked; repeat' first | rfl | split | dsimp only

@[simp] lemma set_is_parked_power (pos : PositionView) (r : TelemetryRecord) :
    (set_is_parked pos r).power = r.power := by
  unfold set_is_parked; repeat' first | rfl | split | dsimp only

@[simp] lemma set_is_parked_lat (pos : PositionView) (r : TelemetryRecord) :
    (set_is_parked pos r).lat = r.lat := by
  unfold set_is_parked; repeat' first | rfl | split | dsimp only

@[simp] lemma set_is_parked_lon (pos : PositionView) (r : TelemetryRecord) :
    (set_is_parked pos r).lon = r.lon := by
  unfold set_is_parked; repeat' first | rfl | split | dsimp only

@[simp] lemma set_lat_lon_is_charging (pos : PositionView) (r : TelemetryRecord) :
    (set_lat_lon pos r).is_charging = r.is_charging := by
  unfold set_lat_lon; repeat' first | rfl | split | dsimp only

@[simp] lemma set_lat_lon_is_dcfc (pos : PositionView) (r : TelemetryRecord) :
    (set_lat_lon pos r).is_dcfc = r.is_dcfc := by
  unfold set_lat_lon; repeat' first | rfl | split | dsimp only

@[simp] lemma set_lat_lon_power (pos : PositionView) (r : TelemetryRecord) :
    (set_lat_lon pos r).power = r.power := by
  unfold set_lat_lon; repeat' first | rfl | split | dsimp only

@[simp] lemma set_elevation_is_charging (pos : PositionView) (r : TelemetryRecord) :
    (set_elevation pos r).is_charging = r.is_charging := by
  unfold set_elevation; repeat' first | rfl | split | dsimp only

@[simp] lemma set_elevation_is_dcfc (pos : PositionView) (r : TelemetryRecord) :
    (set_elevation pos r).is_dcfc = r.is_dcfc := by
  unfold set_elevation; repeat' first | rfl | split | dsimp only

@[simp] lemma set_elevation_power (pos : PositionView) (r : TelemetryRecord) :
    (set_elevation pos r).power = r.power := by
  unfold set_elevation; repeat' first | rfl | split | dsimp only

@[simp] lemma set_elevation_lat (pos : PositionView) (r : TelemetryRecord) :
    (set_elevation pos r).lat = r.lat := by
  unfold set_elevation; repeat' first | rfl | split | dsimp only

@[simp] lemma set_elevation_lon (pos : PositionView) (r : TelemetryRecord) :
    (set_elevation pos r).lon = r.lon := by
  unfold set_elevation; repeat' first | rfl | split | dsimp only

@[simp] lemma set_heading_is_charging (pos : PositionView) (r : TelemetryRecord) :
    (set_heading pos r).is_charging = r.is_charging := by
  unfold set_heading; repeat' first | rfl | split | dsimp only

@[simp] lemma set_heading_is_dcfc (pos : PositionView) (r : TelemetryRecord) :
    (set_heading pos r).is_dcfc = r.is_dcfc := by
  unfold set_heading; repeat' first | rfl | split | dsimp only

@[simp] lemma set_heading_power (pos : PositionView) (r : TelemetryRecord) :
    (set_heading pos r).power = r.power := by
  unfold set_heading; repeat' first | rfl | split | dsimp only

@[simp] lemma set_heading_lat (pos : PositionView) (r : TelemetryRecord) :
    (set_heading pos r).lat = r.lat := by
  unfold set_heading; repeat' first | rfl | split | dsimp only

@[simp] lemma set_heading_lon (pos : PositionView) (r : TelemetryRecord) :
    (set_heading pos r).lon = r.lon := by
  unfold set_heading; repeat' first | rfl | split | dsimp only

@[simp] lemma add_position_fields_is_charging (v : VehicleView) (r : TelemetryRecord) :
    (add_position_fields v r).is_charging = r.is_charging := by
  unfold add_position_fields; repeat' first | rfl | split | simp

@[simp] lemma add_position_fields_is_dcfc (v : VehicleView) (r : TelemetryRecord) :
    (add_position_fields v r).is_dcfc = r.is_dcfc := by
  unfold add_position_fields; repeat' first | rfl | split | simp

@[simp] lemma add_position_fields_power (v : VehicleView) (r : TelemetryRecord) :
    (add_position_fields v r).power = r.power := by
  unfold add_position_fields; repeat' first | rfl | split | simp

@[simp] lemma add_temperature_field_is_charging (v : VehicleView) (r : TelemetryRecord) :
    (add_temperature_field v r).is_charging = r.is_charging := by
  unfold add_temperature_field; repeat' first | rfl | split | dsimp only

@[simp] lemma add_temperature_field_is_dcfc (v : VehicleView) (r : TelemetryRecord) :
    (add_temperature_field v r).is_dcfc = r.is_dcfc := by
  unfold add_temperature_field; repeat' first | rfl | split | dsimp only

@[simp] lemma add_temperature_field_power (v : VehicleView) (r : TelemetryRecord) :
    (add_temperature_field v r).power = r.power := by
  unfold add_temperature_field; repeat' first | rfl | split | dsimp only

@[simp] lemma add_temperature_field_lat (v : VehicleView) (r : TelemetryRecord) :
    (add_temperature_field v r).lat = r.lat := by
  unfold add_temperature_field; repeat' first | rfl | split | dsimp only

@[simp] lemma add_temperature_field_lon (v : VehicleView) (r : TelemetryRecord) :
    (add_temperature_field v r).lon = r.lon := by
  unfold add_temperature_field; repeat' first | rfl | split | dsimp only

@[simp] lemma add_climatization_field_is_charging (v : VehicleView) (r : TelemetryRecord) :
    (add_climatization_field v r).is_charging = r.is_charging := by
  unfold add_climatization_field; repeat' first | rfl | split | dsimp only

@[simp] lemma add_climatization_field_is_dcfc (v : VehicleView) (r : TelemetryRecord) :
    (add_climatization_field v r).is_dcfc = r.is_dcfc := by
  unfold add_climatization_field; repeat' first | rfl | split | dsimp only

@[simp] lemma add_climatization_field_power (v : VehicleView) (r : TelemetryRecord) :
    (add_climatization_field v r).power = r.power := by
  unfold add_climatization_field; repeat' first | rfl | split | dsimp only

@[simp] lemma add_climatization_field_lat (v : VehicleView) (r : TelemetryRecord) :
    (add_climatization_field v r).lat = r.lat := by
  unfold add_climatization_field; repeat' first | rfl | split | dsimp only

@[simp] lemma add_climatization_field_lon (v : VehicleView) (r : TelemetryRecord) :
    (add_climatization_field v r).lon = r.lon := by
  unfold add_climatization_field; repeat' first | rfl | split | dsimp only

/-- Non-electric vehicles skip the whole charging block. -/
lemma add_charging_fields_non_electric (v : VehicleView) (r : TelemetryRecord)
    (h : v.is_electric = false) : add_charging_fields v r = r := by
  unfold add_charging_fields; rw [h]; rfl

/-- Claim C10: for every vehicle whose runtime type is not an electric
vehicle, the telemetry record never contains the `is_charging`, `is_dcfc`
or `power` fields, regardless of the vehicle's charging attributes. -/
theorem non_electric_vehicle_omits_charging_fields (v : VehicleView)
    (h : v.is_electric = false) :
    (build_telemetry v).is_charging = none ∧ (build_telemetry v).is_dcfc = none ∧
      (build_telemetry v).power = none := by
  unfold build_telemetry
  rw [add_charging_fields_non_electric v _ h]
  simp

/-- Witness for C10: a non-electric vehicle carrying fully populated
charging attributes (state CHARGING, type AC, power 5 kW) still gets none
of the three fields. -/
theorem non_electric_vehicle_omits_charging_fields_witness :
    (build_telemetry nonEvWithChargingData).is_charging = none ∧
      (build_telemetry nonEvWithChargingData).is_dcfc = none ∧
      (build_telemetry nonEvWithChargingData).power = none :=
  non_electric_vehicle_omits_charging_fields nonEvWithChargingData rfl

/-- Claim C4: with charging power enabled and set, the published `power`
equals the charging power in kW negated, and is negated a second time when
the charging state is DISCHARGING. -/
theorem power_sign_convention (v : VehicleView) (ch : ChargingView) (p : ℚ)
    (hE : v.is_electric = true) (hC : v.charging = some ch) (hEn : ch.enabled = true)
    (hPe : ch.power.enabled = true) (hPv : ch.power.value = some p) :
    (build_telemetry v).power =
      some (if ch.state.enabled = true ∧ ch.state.value = some ChargingState.discharging
        then p else -p) := by
  have h1 : (build_telemetry v).power =
      (add_charging_fields v (add_odometer_field v (add_drive_fields v {}))).power := by
    unfold build_telemetry; simp
  rw [h1]
  unfold add_charging_fields
  rw [hE, hC]
  simp only [if_true]
  rw [hEn]
  simp only [if_true]
  unfold set_power
  rw [hPe, hPv]
  split <;> simp_all

/-- Witness for C4: the spec's concrete instances, charging power 5 kW gives
`power = -5` when CHARGING and `power = 5` when DISCHARGING. -/
theorem power_sign_convention_witness :
    (build_telemetry evCharging).power = some (-5) ∧
      (build_telemetry evDischarging).power = some 5 := by
  constructor
  · rw [power_sign_convention evCharging chargingAt5kW 5 rfl rfl rfl rfl rfl]
    decide
  · rw [power_sign_convention evDischarging dischargingAt5kW 5 rfl rfl rfl rfl rfl]
    decide

/-- Claim C5: with charging enabled and a charging state that is enabled and
set, states CHARGING, CONSERVATION, DISCHARGING publish `is_charging = true`,
states OFF, READY_FOR_CHARGING, ERROR publish `is_charging = false`, and any
other state leaves the field out. -/
theorem is_charging_state_mapping (v : VehicleView) (ch : ChargingView) (st : ChargingState)
    (hE : v.is_electric = true) (hC : v.charging = some ch) (hEn : ch.enabled = true)
    (hSe : ch.state.enabled = true) (hSv : ch.state.value = some st) :
    (build_telemetry v).is_charging =
      (if st = ChargingState.charging ∨ st = ChargingState.conservation ∨
          st = ChargingState.discharging then some true
        else if st = ChargingState.off ∨ st = ChargingState.ready_for_charging ∨
          st = ChargingState.error then some false
        else none) := by
  have h1 : (build_telemetry v).is_charging =
      (add_charging_fields v (add_odometer_field v (add_drive_fields v {}))).is_charging := by
    unfold build_telemetry; simp
  have h0 : (add_odometer_field v (add_drive_fields v {})).is_charging = none := by simp
  rw [h1]
  unfold add_charging_fields
  rw [hE, hC]
  simp only [if_true]
  rw [hEn]
  simp only [if_true]
  simp only [set_power_is_charging, set_is_dcfc_is_charging]
  unfold set_is_charging
  rw [hSe, hSv]
  dsimp only
  split <;> [simp_all; (split <;> simp_all)]

/-- Witness for C5: state CHARGING yields `is_charging = some true`. -/
theorem is_charging_state_mapping_witness :
    (build_telemetry evCharging).is_charging = some true := by
  rw [is_charging_state_mapping evCharging chargingAt5kW ChargingState.charging
    rfl rfl rfl rfl rfl]
  decide

/-- The `lat` output of the paired latitude/longitude block. -/
lemma set_lat_lon_lat (pos : PositionView) (r : TelemetryRecord) :
    (set_lat_lon pos r).lat =
      if pos.latitude.enabled = true ∧ (pos.latitude.value).isSome = true ∧
          pos.longitude.enabled = true ∧ (pos.longitude.value).isSome = true then
        pos.latitude.value
      else r.lat := by
  unfold set_lat_lon
  cases hle : pos.latitude.enabled <;> cases hlv : pos.latitude.value <;>
    cases hloe : pos.longitude.enabled <;> cases hlov : pos.longitude.value <;> simp_all

/-- The `lon` output of the paired latitude/longitude block. -/
lemma set_lat_lon_lon (pos : PositionView) (r : TelemetryRecord) :
    (set_lat_lon pos r).lon =
      if pos.latitude.enabled = true ∧ (pos.latitude.value).isSome = true ∧
          pos.longitude.enabled = true ∧ (pos.longitude.value).isSome = true then
        pos.longitude.value
      else r.lon := by
  unfold set_lat_lon
  cases hle : pos.latitude.enabled <;> cases hlv : pos.latitude.value <;>
    cases hloe : pos.longitude.enabled <;> cases hlov : pos.longitude.value <;> simp_all

/-- Claim C6: the record contains `lat` if and only if it contains `lon`;
both are present exactly when the position is present and enabled and
latitude and longitude are each enabled and set. -/
theorem lat_lon_paired (v : VehicleView) :
    ((build_telemetry v).lat.isSome ↔ (build_telemetry v).lon.isSome) ∧
      ((build_telemetry v).lat.isSome ↔ ∃ pos, v.position = some pos ∧ pos.enabled = true ∧
        pos.latitude.enabled = true ∧ (pos.latitude.value).isSome = true ∧
        pos.longitude.enabled = true ∧ (pos.longitude.value).isSome = true) := by
  have hlat : (build_telemetry v).lat =
      (add_position_fields v
        (add_charging_fields v (add_odometer_field v (add_drive_fields v {})))).lat := by
    unfold build_telemetry; simp
  have hlon : (build_telemetry v).lon =
      (add_position_fields v
        (add_charging_fields v (add_odometer_field v (add_drive_fields v {})))).lon := by
    unfold build_telemetry; simp
  have hblat : (add_charging_fields v (add_odometer_field v (add_drive_fields v
      ({} : TelemetryRecord)))).lat = none := by simp
  have hblon : (add_charging_fields v (add_odometer_field v (add_drive_fields v
      ({} : TelemetryRecord)))).lon = none := by simp
  rw [hlat, hlon]
  unfold add_position_fields
  cases hpos : v.position with
  | none => simp [hblat, hblon, hpos]
  | some pos =>
    by_cases hEn : pos.enabled = true
    · simp only [hEn, if_true]
      simp only [set_heading_lat, set_elevation_lat, set_heading_lon, set_elevation_lon]
      rw [set_lat_lon_lat, set_lat_lon_lon]
      simp only [set_is_parked_lat, set_is_parked_lon, hblat, hblon]
      by_cases hc : pos.latitude.enabled = true ∧ (pos.latitude.value).isSome = true ∧
          pos.longitude.enabled = true ∧ (pos.longitude.value).isSome = true
      · rw [if_pos hc, if_pos hc]
        simp_all [hpos]
      · rw [if_neg hc, if_neg hc]
        simp_all [hpos]
    · simp_all [hpos]

/-! ### Association-list lemmas -/

lemma updateAssoc_overwrite {α : Type} (m : List (String × α)) (k : String) (v w : α) :
    updateAssoc (updateAssoc m k v) k w = updateAssoc m k w := by
  induction m with
  | nil => simp [updateAssoc]
  | cons p rest ih =>
    obtain ⟨k', v'⟩ := p
    by_cases h : k' = k
    · simp [updateAssoc, h]
    · simp [updateAssoc, h, ih]

lemma lookupAssoc_updateAssoc {α : Type} (m : List (String × α)) (k : String) (v : α) :
    lookupAssoc (updateAssoc m k v) k = some v := by
  induction m with
  | nil => simp [updateAssoc, lookupAssoc]
  | cons p rest ih =>
    obtain ⟨k', v'⟩ := p
    by_cases h : k' = k
    · simp [updateAssoc, lookupAssoc, h]
    · simp [updateAssoc, lookupAssoc, h, ih]

/-! ### Claims about the push pipeline and the scheduler -/

/-- Claim C1 (code bug): a push answered HTTP 200 with body status "fail"
sets the connection state to ERROR as claimed, but leaves
`subsequent_errors` at 0 instead of incrementing it to 1 — the plugin never
increments the counter anywhere, leaving its severity-escalation branches
dead. -/
theorem push_fail_does_not_increment_error_counter :
    (publish_telemetry initialState "VIN1" {} 1700000000 failPushResponse).connection_state =
        ConnectionState.error ∧
      (publish_telemetry initialState "VIN1" {} 1700000000 failPushResponse).subsequent_errors =
        0 :=
  ⟨rfl, rfl⟩

/-- Claim C2 counterexample: a push that fails with HTTP 503 does not drive
the connection state to ERROR — a CONNECTED state stays CONNECTED, because
the non-200 branch only logs. -/
theorem non_200_push_keeps_state_counterexample :
    (publish_telemetry connectedState "VIN1" {} 1700000000
        (PushResponse.response 503 BodyResult.parse_failure)).connection_state =
      ConnectionState.connected :=
  rfl

/-- Claim C2 (amended): a transport failure, and a 200 response whose body
is unparseable, empty, lacks a status key, or reports a non-ok status, all
set the connection state to ERROR; a non-200 HTTP status leaves the state
(and everything else) unchanged, only logging; only a Success outcome sets
CONNECTED. -/
theorem push_outcome_connection_state (s : PluginState) (vin : String)
    (d : TelemetryRecord) (now : ℚ) :
    (publish_telemetry s vin d now PushResponse.request_exception).connection_state =
        ConnectionState.error
    ∧ (publish_telemetry s vin d now
        (PushResponse.response 200 BodyResult.parse_failure)).connection_state =
        ConnectionState.error
    ∧ (publish_telemetry s vin d now
        (PushResponse.response 200 BodyResult.null)).connection_state = ConnectionState.error
    ∧ (∀ m : Bool, (publish_telemetry s vin d now
        (PushResponse.response 200 (BodyResult.obj ⟨none, m⟩))).connection_state =
        ConnectionState.error)
    ∧ (∀ (st : String) (m : Bool), st ≠ "ok" → (publish_telemetry s vin d now
        (PushResponse.response 200 (BodyResult.obj ⟨some st, m⟩))).connection_state =
        ConnectionState.error)
    ∧ (∀ (c : Nat) (body : BodyResult), c ≠ 200 →
        publish_telemetry s vin d now (PushResponse.response c body) = s)
    ∧ (∀ m : Bool, (publish_telemetry s vin d now
        (PushResponse.response 200 (BodyResult.obj ⟨some "ok", m⟩))).connection_state =
        ConnectionState.connected) := by
  refine ⟨rfl, by simp [publish_telemetry], by simp [publish_telemetry],
    fun m => by simp [publish_telemetry], fun st m h => ?_, fun c body h => ?_,
    fun m => by simp [publish_telemetry]⟩
  · simp [publish_telemetry, h]
  · simp [publish_telemetry, h]

/-- Witness for C2 (amended): a concrete 503 push leaves the initial state
untouched, and a concrete API rejection sets ERROR. -/
theorem push_outcome_connection_state_witness :
    publish_telemetry initialState "VIN1" {} 0
        (PushResponse.response 503 BodyResult.parse_failure) = initialState ∧
      (publish_telemetry initialState "VIN1" {} 0 failPushResponse).connection_state =
        ConnectionState.error := by
  have h := push_outcome_connection_state initialState "VIN1" {} 0
  exact ⟨h.2.2.2.2.2.1 503 BodyResult.parse_failure (by decide),
    h.2.2.2.2.1 "fail" false (by decide)⟩

/-- Claim C3 counterexample: a transport error during the next-charge fetch
does not clear the stored value — the request exception escapes
`_get_next_charge` and the previously stored 50 survives. -/
theorem next_charge_transport_error_counterexample :
    get_next_charge connectedState "token1" NextChargeResponse.request_exception =
        Except.error connectedState ∧
      lookupAssoc connectedState.next_charge "token1" = some (some 50) :=
  ⟨rfl, rfl⟩

/-- Claim C3 (amended): the fetch never changes the connection state; every
HTTP response outcome other than 200-ok-with-non-null-next_charge (non-200
status, non-ok status, missing or null `next_charge`) clears the stored
value to absent; a transport error, an unparseable body or a null body
raises out of the operation, leaving any previously stored value unchanged
(a missing entry is merely initialized to absent). -/
theorem get_next_charge_failure_semantics (s : PluginState) (token : String)
    (resp : NextChargeResponse) :
    (exceptState (get_next_charge s token resp)).connection_state = s.connection_state
    ∧ (∀ (c : Nat) (body : NextBodyResult), resp = NextChargeResponse.response c body →
        c ≠ 200 → get_next_charge s token resp =
          Except.ok { s with next_charge := updateAssoc s.next_charge token none })
    ∧ (∀ b : NextChargeBody, resp = NextChargeResponse.response 200 (NextBodyResult.obj b) →
        b.status ≠ some "ok" → get_next_charge s token resp =
          Except.ok { s with next_charge := updateAssoc s.next_charge token none })
    ∧ (∀ b : NextChargeBody, resp = NextChargeResponse.response 200 (NextBodyResult.obj b) →
        b.status = some "ok" → (b.next_charge = none ∨ b.next_charge = some none) →
        get_next_charge s token resp =
          Except.ok { s with next_charge := updateAssoc s.next_charge token none })
    ∧ ((resp = NextChargeResponse.request_exception ∨
        resp = NextChargeResponse.response 200 NextBodyResult.parse_failure ∨
        resp = NextChargeResponse.response 200 NextBodyResult.null) →
        ∃ s', get_next_charge s token resp = Except.error s' ∧
          lookupAssoc s'.next_charge token = some ((lookupAssoc s.next_charge token).join) ∧
          s'.connection_state = s.connection_state) := by
  refine ⟨?_, ?_, ?_, ?_, ?_⟩
  · cases resp with
    | request_exception =>
      by_cases hk : (lookupAssoc s.next_charge token).isSome = true <;>
        simp [get_next_charge, exceptState, hk]
    | response c body =>
      by_cases hc : c = 200
      · rcases body with _ | _ | b
        · by_cases hk : (lookupAssoc s.next_charge token).isSome = true <;>
            simp [get_next_charge, exceptState, hk, hc]
        · by_cases hk : (lookupAssoc s.next_charge token).isSome = true <;>
            simp [get_next_charge, exceptState, hk, hc]
        · by_cases hok : b.status = some "ok"
          · rcases hnc : b.next_charge with _ | w
            · by_cases hk : (lookupAssoc s.next_charge token).isSome = true <;>
                simp [get_next_charge, exceptState, hk, hc, hok, hnc]
            · rcases w with _ | q <;>
                (by_cases hk : (lookupAssoc s.next_charge token).isSome = true <;>
                  simp [get_next_charge, exceptState, hk, hc, hok, hnc])
          · by_cases hk : (lookupAssoc s.next_charge token).isSome = true <;>
              simp [get_next_charge, exceptState, hk, hc, hok]
      · by_cases hk : (lookupAssoc s.next_charge token).isSome = true <;>
          simp [get_next_charge, exceptState, hk, hc]
  · intro c body heq hne
    subst heq
    unfold get_next_charge
    dsimp only
    rw [if_pos hne]
    by_cases hk : (lookupAssoc s.next_charge token).isSome = true <;>
      simp [hk, updateAssoc_overwrite]
  · intro b heq hne
    subst heq
    unfold get_next_charge
    dsimp only
    rw [if_neg (by simp : ¬(200 ≠ 200))]
    rw [if_neg hne]
    by_cases hk : (lookupAssoc s.next_charge token).isSome = true <;>
      simp [hk, updateAssoc_overwrite]
  · intro b heq hok hnull
    subst heq
    unfold get_next_charge
    dsimp only
    rw [if_neg (by simp : ¬(200 ≠ 200))]
    rw [if_pos hok]
    rcases hnull with h | h <;> rw [h] <;>
      (by_cases hk : (lookupAssoc s.next_charge token).isSome = true <;>
        simp [hk, updateAssoc_overwrite])
  · intro h
    have main : ∀ s₁ : PluginState,
        s₁ = (if (lookupAssoc s.next_charge token).isSome then s
          else { s with next_charge := updateAssoc s.next_charge token none }) →
        lookupAssoc s₁.next_charge token = some ((lookupAssoc s.next_charge token).join) ∧
          s₁.connection_state = s.connection_state := by
      intro s₁ hs₁
      by_cases hk : (lookupAssoc s.next_charge token).isSome = true
      · obtain ⟨w, hw⟩ := Option.isSome_iff_exists.mp hk
        rw [hs₁, if_pos hk]
        simp [hw]
      · have hnone : lookupAssoc s.next_charge token = none :=
          Option.not_isSome_iff_eq_none.mp (by simpa using hk)
        rw [hs₁, if_neg hk]
        simp [hnone, lookupAssoc_updateAssoc]
    rcases h with h | h | h <;> subst h <;> unfold get_next_charge <;> dsimp only
    · exact ⟨_, rfl, main _ rfl⟩
    · rw [if_neg (by simp : ¬(200 ≠ 200))]
      exact ⟨_, rfl, main _ rfl⟩
    · rw [if_neg (by simp : ¬(200 ≠ 200))]
      exact ⟨_, rfl, main _ rfl⟩

/-- Witness for C3 (amended): a concrete 404 clears the stored value; a
concrete transport error propagates and leaves the stored 50 readable. -/
theorem get_next_charge_failure_semantics_witness :
    get_next_charge connectedState "token1" (NextChargeResponse.response 404 NextBodyResult.null) =
        Except.ok { connectedState with
          next_charge := updateAssoc connectedState.next_charge "token1" none } ∧
      (∃ s', get_next_charge connectedState "token1" NextChargeResponse.request_exception =
          Except.error s' ∧
        lookupAssoc s'.next_charge "token1" =
          some ((lookupAssoc connectedState.next_charge "token1").join) ∧
        s'.connection_state = connectedState.connection_state) := by
  have h := get_next_charge_failure_semantics connectedState "token1"
  exact ⟨(h (NextChargeResponse.response 404 NextBodyResult.null)).2.1 404 NextBodyResult.null
      rfl (by decide),
    (h NextChargeResponse.request_exception).2.2.2.2 (Or.inl rfl)⟩

/-- Claim C7: a configured interval of 5 seconds raises a
`ConfigurationError`, an interval of 60 succeeds, and a missing interval
defaults to 60 seconds. -/
theorem interval_validation :
    plugin_init ⟨[("VIN1", "token1")], some 5⟩ =
        Except.error "Interval must be at least 10 seconds" ∧
      plugin_init ⟨[("VIN1", "token1")], some 60⟩ = Except.ok ⟨[("VIN1", "token1")], 60⟩ ∧
      plugin_init ⟨[("VIN1", "token1")], none⟩ = Except.ok ⟨[("VIN1", "token1")], 60⟩ :=
  ⟨rfl, rfl, rfl⟩

/-- Claim C8: if any managing connector of the vehicle is unhealthy, the
whole per-vehicle processing returns with the state untouched and without
issuing any HTTP request — no record is built, nothing is pushed or
fetched, and neither the connection state nor any cache changes. -/
theorem unhealthy_connector_skips_vehicle (s : PluginState) (veh : VehicleView)
    (vin token : String) (now : ℚ) (push_resp : PushResponse)
    (next_resp : NextChargeResponse)
    (h : ∃ c ∈ veh.managing_connectors, c.healthy = false) :
    update_and_publish_telemetry s (some veh) vin token now push_resp next_resp =
      (Except.ok s, []) := by
  have hany : veh.managing_connectors.any (fun c => !c.healthy) = true := by
    rcases h with ⟨c, hc, hh⟩
    exact List.any_eq_true.mpr ⟨c, hc, by simp [hh]⟩
  unfold update_and_publish_telemetry
  simp [hany]

/-- Witness for C8: a concrete vehicle whose only connector is unhealthy is
skipped for the tick. -/
theorem unhealthy_connector_skips_vehicle_witness :
    update_and_publish_telemetry initialState (some vehicleUnhealthyConnector) "VIN1" "token1"
        1700000000 okPushResponse NextChargeResponse.request_exception =
      (Except.ok initialState, []) :=
  unhealthy_connector_skips_vehicle initialState vehicleUnhealthyConnector "VIN1" "token1"
    1700000000 okPushResponse NextChargeResponse.request_exception
    ⟨⟨"connector1", false⟩, by decide, rfl⟩

/-- Claim C9: an exception escaping the tick body is logged at critical
severity, marks the subsystem unhealthy, and is re-raised so the loop
terminates instead of running any later tick. -/
theorem tick_exception_is_fatal (s : PluginState) (items : List VehicleTickInput)
    (s' : PluginState) (reqs : List Request) (rest : List (List VehicleTickInput))
    (h : tick_vehicles s items = (Except.error s', reqs)) :
    background_tick s items =
        (Except.error { s' with healthy := false, connection_state := ConnectionState.error },
          reqs, [LogSeverity.critical]) ∧
      background_loop s (items :: rest) =
        Except.error { s' with healthy := false, connection_state := ConnectionState.error } := by
  have hbt : background_tick s items =
      (Except.error { s' with healthy := false, connection_state := ConnectionState.error },
        reqs, [LogSeverity.critical]) := by
    unfold background_tick
    rw [h]
  refine ⟨hbt, ?_⟩
  unfold background_loop
  rw [hbt]

/-- Witness for C9: a tick whose next-charge fetch raises terminates the
whole loop, regardless of further scheduled ticks. -/
theorem tick_exception_is_fatal_witness :
    background_loop initialState ([faultyTickItem] :: [[faultyTickItem]]) =
      Except.error
        { faultyTickErrorState with
            healthy := false, connection_state := ConnectionState.error } :=
  (tick_exception_is_fatal initialState [faultyTickItem] faultyTickErrorState
    [Request.push_telemetry "VIN1" {}, Request.fetch_next_charge "token1"] [[faultyTickItem]]
    (by rfl)).2

end Abrp
